import Mathlib

/-!
# threejs_floatingText: the animation / render core

A shallow embedding of `src/js/components/shape.js` and
`src/js/components/scene.js`.

Numbers.  JavaScript numbers are idealised as the elements of a linear ordered
field `α` (exact arithmetic, finite values); every definition is computable and
can be evaluated at `α = ℚ`.  `Math.sin` and `Math.PI` are supplied by the
runtime and enter as the fields of `JsMath`.  The one place where the program
itself manufactures a non-number, the quotient of two `undefined` fields in
`setCamera`, is modelled explicitly with `JsNum.nan`.

Objects.  A private field that is declared without initialiser holds
`undefined` until it is assigned; such a field is an `Option`, `none` being
`undefined`.  A method that dereferences `undefined` throws a `TypeError`; the
methods of `MainScene` therefore return a `Result`, which keeps the state
reached at the throw.

External collaborators (renderer draw, stats widget, tweens, asset loader,
frame scheduling) have no effect on the modelled state; where the program
passes through them it is said in the comment of the definition.
-/

namespace FloatingText

/-! ## Numbers and runtime -/

/-- The two functions of the JavaScript `Math` object the program uses. -/
structure JsMath (α : Type) where
  /-- `Math.sin` -/
  sin : α → α
  /-- `Math.PI` -/
  PI : α

/-- A JavaScript number that may be `NaN`. -/
inductive JsNum (α : Type) where
  | nan : JsNum α
  | num (x : α) : JsNum α
  deriving DecidableEq

/-- The JavaScript quotient `a / b` of two slots that hold a number or
`undefined` (`none`).  `ToNumber(undefined)` is `NaN` and a quotient with a
`NaN` operand is `NaN`; the quotient of two numbers is the field quotient
(exact for a nonzero divisor). -/
def jsDiv {α : Type} [Div α] : Option α → Option α → JsNum α
  | some a, some b => JsNum.num (a / b)
  | _, _ => JsNum.nan

/-- Modelled from the spec: `MathUtils.degToRad` of the three.js library, which
is not part of the sources: `degrees * DEG2RAD` with `DEG2RAD = Math.PI / 180`. -/
def degToRad {α : Type} [Mul α] [Div α] [OfNat α 180] (M : JsMath α) (degrees : α) : α :=
  degrees * (M.PI / 180)

/-! ## three.js value objects -/

/-- A `Vector3`. -/
structure Vector3 (α : Type) where
  x : α
  y : α
  z : α
  deriving DecidableEq

/-- An `Euler` rotation (the angles only). -/
structure Euler (α : Type) where
  x : α
  y : α
  z : α
  deriving DecidableEq

/-- The pose of a three.js `Mesh`: its position and rotation.  Geometry and
material are handles of the renderer; the scale is driven by the tween
timeline, outside the render loop. -/
structure Mesh (α : Type) where
  position : Vector3 α
  rotation : Euler α
  deriving DecidableEq

/-- The pose of `new Mesh(geometry, material)`: at the origin, not rotated. -/
def Mesh.create {α : Type} [Zero α] : Mesh α :=
  { position := { x := 0, y := 0, z := 0 }, rotation := { x := 0, y := 0, z := 0 } }

/-- A child of an `Object3D`: the mesh of a `Shape` (the node is shared with
the Shape, which holds its pose; it is named by the Shape's creation index) or
a mesh that only the parent refers to. -/
inductive Child (α : Type) where
  | entity (index : Nat) : Child α
  | mesh (m : Mesh α) : Child α
  deriving DecidableEq

/-- An `Object3D` used as a container: its rotation and its children. -/
structure Object3D (α : Type) where
  rotation : Euler α
  children : List (Child α)
  deriving DecidableEq

/-- The state of `new Object3D()`. -/
def Object3D.create {α : Type} [Zero α] : Object3D α :=
  { rotation := { x := 0, y := 0, z := 0 }, children := [] }

/-- `Object3D.add` for a child. -/
def Object3D.add {α : Type} (o : Object3D α) (ch : Child α) : Object3D α :=
  { o with children := o.children ++ [ch] }

/-! ## shape.js -/

/-- The argument object of the `Shape` constructor (geometry and material
handles left out); `speed` and `offsetSpeed` are optional. -/
structure ShapeArgs (α : Type) where
  position : Vector3 α
  speed : Option α := none
  offsetSpeed : Option α := none
  index : Nat

/-- A `Shape` instance. -/
structure Shape (α : Type) where
  mesh : Mesh α
  speed : α
  offsetSpeed : α
  initPosition : Vector3 α
  deriving DecidableEq

/-- `Shape.constructor`: builds the mesh, copies the position into it, adds it
to the parent and stores speed (default `0.001`), phase offset (default `0`)
and the reference position.  Returns the new Shape and the updated parent.
The scale-in tween is started on its own timeline. -/
def Shape.construct {α : Type} [Field α] (a : ShapeArgs α) (parentMesh : Object3D α) :
    Shape α × Object3D α :=
  let mesh : Mesh α := { (Mesh.create : Mesh α) with
    position := { x := a.position.x, y := a.position.y, z := a.position.z } }
  ({ mesh := mesh
     speed := a.speed.getD 0.001
     offsetSpeed := a.offsetSpeed.getD 0
     initPosition := a.position },
   parentMesh.add (Child.entity a.index))

/-- `Shape.render(time)`. -/
def Shape.render {α : Type} [Field α] (M : JsMath α) (time : α) (sh : Shape α) : Shape α :=
  { sh with
    mesh :=
      { position :=
          { sh.mesh.position with
            y := M.sin (time * sh.speed + sh.offsetSpeed) + sh.initPosition.y }
        rotation := { sh.mesh.rotation with y := sh.mesh.rotation.y + 0.01 } } }

/-- The calls `render(t_1)`, ..., `render(t_k)` made one after the other. -/
def Shape.renders {α : Type} [Field α] (M : JsMath α) (times : List α) (sh : Shape α) :
    Shape α :=
  times.foldl (fun s t => s.render M t) sh

/-! ## scene.js: state -/

/-- The error a method raises when it dereferences `undefined` or `null`. -/
inductive JsError where
  | typeError : JsError
  deriving DecidableEq

/-- The outcome of a method call: it returned, or it threw; either way the
state it reached is kept. -/
inductive Result (σ : Type) where
  | done (s : σ) : Result σ
  | throw (s : σ) (e : JsError) : Result σ

/-- The state a call leaves behind. -/
def Result.state {σ : Type} : Result σ → σ
  | Result.done s => s
  | Result.throw s _ => s

/-- Sequencing of two calls in one function body: a throw ends the body. -/
def Result.andThen {σ : Type} (r : Result σ) (f : σ → Result σ) : Result σ :=
  match r with
  | Result.done s => f s
  | Result.throw s e => Result.throw s e

/-- What the display environment reports when a handler runs: the window's
inner size, `window.devicePixelRatio` (`none`: the property is undefined) and
the bounding box of the title's `TextGeometry`, which depends on the loaded
font asset. -/
structure Env (α : Type) where
  innerWidth : α
  innerHeight : α
  devicePixelRatio : Option α
  titleBoxMin : Vector3 α
  titleBoxMax : Vector3 α

/-- The document the script finds at start-up: the size of the `.scene`
canvas and the inline `style.display` of the `.main-title` element (`none`
when `querySelector` finds no such element). -/
structure Document (α : Type) where
  canvasWidth : α
  canvasHeight : α
  mainTitle : Option String

/-- A pointer-move event. -/
structure MouseEvent (α : Type) where
  clientX : α
  clientY : α

/-- The stats widget handle. -/
structure Stats where
  panel : Nat
  deriving DecidableEq

/-- A node added to the scene root. -/
inductive SceneNode where
  | camera : SceneNode
  | axesHelper (size : Nat) : SceneNode
  | container : SceneNode
  deriving DecidableEq

/-- The three.js `Scene`: background colour and the nodes added to it. -/
structure Scene where
  background : Nat
  children : List SceneNode
  deriving DecidableEq

/-- The `PerspectiveCamera`. -/
structure Camera (α : Type) where
  fov : α
  aspect : JsNum α
  near : α
  far : α
  position : Vector3 α
  deriving DecidableEq

/-- The configuration of the `WebGLRenderer`: pixel ratio and size. -/
structure Renderer (α : Type) where
  pixelRatio : α
  size : α × α
  deriving DecidableEq

/-- The object `#guiObj` bound to the parameter panel. -/
structure GuiObj (α : Type) where
  y : α
  showTitle : Bool
  deriving DecidableEq

/-- The pointer sample `mouse`. -/
structure Mouse (α : Type) where
  x : α
  y : α
  deriving DecidableEq

/-- The fields of a `MainScene` instance, with the part of the document it
writes to (`titleEl`, the `style.display` of the title element). -/
structure MainScene (α : Type) where
  canvas : α × α
  renderer : Option (Renderer α)
  scene : Option Scene
  camera : Option (Camera α)
  controls : Option Unit
  stats : Option Stats
  width : Option α
  height : Option α
  mesh : Option (Mesh α)
  guiObj : GuiObj α
  containerMesh : Object3D α
  shapes : List (Shape α)
  mouse : Mouse α
  titleEl : Option String
  listeners : List String

/-- The field initialisers and the constructor body before `this.init()`. -/
def MainScene.create {α : Type} [Zero α] (doc : Document α) : MainScene α :=
  { canvas := (doc.canvasWidth, doc.canvasHeight)
    renderer := none
    scene := none
    camera := none
    controls := none
    stats := none
    width := none
    height := none
    mesh := none
    guiObj := { y := 0, showTitle := true }
    containerMesh := Object3D.create
    shapes := []
    mouse := { x := 0, y := 0 }
    titleEl := doc.mainTitle
    listeners := [] }

/-! ## scene.js: methods -/

section Methods

variable {α : Type} [LinearOrderedField α]

/-- `setStats`: creates the stats widget and shows panel 0. -/
def setStats (c : MainScene α) : Result (MainScene α) :=
  Result.done { c with stats := some { panel := 0 } }

/-- The change callback `handleChange` that `setGUI` binds to both panel
controls: it writes `#guiObj.y` to `#mesh.position.y`, then sets the title
element's display from `#guiObj.showTitle`. -/
def handleChange (c : MainScene α) : Result (MainScene α) :=
  match c.mesh with
  | none => Result.throw c JsError.typeError
  | some m =>
    let c1 : MainScene α :=
      { c with mesh := some { m with position := { m.position with y := c.guiObj.y } } }
    match c1.titleEl with
    | none => Result.throw c1 JsError.typeError
    | some _ =>
      Result.done { c1 with titleEl := some (if c1.guiObj.showTitle then "block" else "none") }

/-- `setGUI`: looks up the title element, defines `handleChange` and creates
the panel with its two controls; the callback runs only on a panel change, so
the call leaves the state as it is. -/
def setGUI (c : MainScene α) : Result (MainScene α) :=
  Result.done c

/-- `setRender`: a `WebGLRenderer` on the canvas (pixel ratio 1, canvas size). -/
def setRender (c : MainScene α) : Result (MainScene α) :=
  Result.done { c with renderer := some { pixelRatio := 1, size := c.canvas } }

/-- `setScene`: a new `Scene` with white background. -/
def setScene (c : MainScene α) : Result (MainScene α) :=
  Result.done { c with scene := some { background := 0xffffff, children := [] } }

/-- `setCamera`: the aspect is the quotient of the fields `#width` and
`#height` as they are at the call; the camera is then added to the scene. -/
def setCamera (c : MainScene α) : Result (MainScene α) :=
  let aspect : JsNum α := jsDiv c.width c.height
  let camera : Camera α :=
    { fov := 60, aspect := aspect, near := 0.1, far := 10000,
      position := { x := 0, y := 0, z := 10 } }
  let c1 : MainScene α := { c with camera := some camera }
  match c1.scene with
  | none => Result.throw c1 JsError.typeError
  | some s => Result.done { c1 with scene := some { s with children := s.children ++ [SceneNode.camera] } }

/-- `setAxesHelper`. -/
def setAxesHelper (c : MainScene α) : Result (MainScene α) :=
  match c.scene with
  | none => Result.throw c JsError.typeError
  | some s =>
    Result.done { c with scene := some { s with children := s.children ++ [SceneNode.axesHelper 3] } }

/-- `setShapes`: three Shapes under the container, the container added to the
scene, then `shapes` assigned. -/
def setShapes (c : MainScene α) : Result (MainScene α) :=
  let p1 : Shape α × Object3D α := Shape.construct
    { position := { x := 6, y := 2, z := -2 }, index := 0 } c.containerMesh
  let p2 : Shape α × Object3D α := Shape.construct
    { position := { x := -6, y := -1, z := -4 }, speed := some 0.002, offsetSpeed := some 5,
      index := 1 } p1.2
  let p3 : Shape α × Object3D α := Shape.construct
    { position := { x := -1, y := 0, z := 4 }, speed := some 0.001, offsetSpeed := some 10,
      index := 2 } p2.2
  let c1 : MainScene α := { c with containerMesh := p3.2 }
  match c1.scene with
  | none => Result.throw c1 JsError.typeError
  | some s =>
    Result.done
      { c1 with
        scene := some { s with children := s.children ++ [SceneNode.container] }
        shapes := [p1.1, p2.1, p3.1] }

/-- `setText`: the title mesh, shifted on X by `centerOffset`, added to the
container.  Its scale tween runs on its own timeline. -/
def setText (env : Env α) (c : MainScene α) : Result (MainScene α) :=
  let mesh : Mesh α := Mesh.create
  let centerOffset : α := -(env.titleBoxMax.x - env.titleBoxMin.x) / 2
  let mesh : Mesh α := { mesh with position := { mesh.position with x := centerOffset } }
  Result.done { c with containerMesh := c.containerMesh.add (Child.mesh mesh) }

/-- `handleResize`. -/
def handleResize (env : Env α) (c : MainScene α) : Result (MainScene α) :=
  let c1 : MainScene α := { c with width := some env.innerWidth, height := some env.innerHeight }
  match c1.camera with
  | none => Result.throw c1 JsError.typeError
  | some cam =>
    let c2 : MainScene α := { c1 with camera := some { cam with aspect := jsDiv c1.width c1.height } }
    let DPR : α :=
      match env.devicePixelRatio with
      | some d => if d = 0 then 1 else d
      | none => 1
    match c2.renderer with
    | none => Result.throw c2 JsError.typeError
    | some r =>
      Result.done
        { c2 with
          renderer := some { r with pixelRatio := DPR, size := (env.innerWidth, env.innerHeight) } }

/-- `handleMouse`. -/
def handleMouse (env : Env α) (e : MouseEvent α) (c : MainScene α) : MainScene α :=
  let c1 : MainScene α := { c with mouse := { c.mouse with x := (e.clientX / env.innerWidth) * 2 - 1 } }
  { c1 with mouse := { c1.mouse with y := -(e.clientY / env.innerHeight) * 2 + 1 } }

/-- `draw(time)`: one tick.  The stats brackets, the optional orbit-controls
update and the renderer's draw do not touch the modelled state; the request
for the next frame is answered by the environment, which calls `draw` again
with a later time. -/
def draw (M : JsMath α) (time : α) (c : MainScene α) : Result (MainScene α) :=
  match c.stats with
  | none => Result.throw c JsError.typeError
  | some _ =>
    match c.renderer with
    | none => Result.throw c JsError.typeError
    | some _ =>
      let c1 : MainScene α := { c with shapes := c.shapes.map (Shape.render M time) }
      let c2 : MainScene α :=
        { c1 with containerMesh :=
            { c1.containerMesh with
              rotation := { c1.containerMesh.rotation with y := degToRad M (c1.mouse.x * 10) } } }
      let c3 : MainScene α :=
        { c2 with containerMesh :=
            { c2.containerMesh with
              rotation := { c2.containerMesh.rotation with x := degToRad M (c2.mouse.y * 10) } } }
      Result.done c3

/-- `events`: registers the resize and mousemove listeners and runs the
first tick, `draw(0)`. -/
def events (M : JsMath α) (c : MainScene α) : Result (MainScene α) :=
  draw M 0 { c with listeners := c.listeners ++ ["resize", "mousemove"] }

/-- The calls `init` makes once the assets are loaded, in order. -/
def initSteps (M : JsMath α) (env : Env α) : List (MainScene α → Result (MainScene α)) :=
  [setStats, setGUI, setScene, setRender, setCamera, setAxesHelper, setShapes, setText env,
   handleResize env, events M]

/-- Runs a sequence of calls; a throw ends the sequence. -/
def runSteps : List (MainScene α → Result (MainScene α)) → MainScene α → Result (MainScene α)
  | [], c => Result.done c
  | f :: fs, c => (f c).andThen (runSteps fs)

/-- `init`, after the awaited asset load has completed. -/
def init (M : JsMath α) (env : Env α) (c : MainScene α) : Result (MainScene α) :=
  runSteps (initSteps M env) c

/-- The steps of `init` up to and including `setCamera`. -/
def initThroughSetCamera (M : JsMath α) (env : Env α) (c : MainScene α) : Result (MainScene α) :=
  runSteps ((initSteps M env).take 5) c

/-! ## Sample inputs -/

/-- A window of 800 by 600 at device pixel ratio 2; the title's bounding box
spans `[0.1, 10.1]` on X. -/
def sampleEnv : Env α :=
  { innerWidth := 800, innerHeight := 600, devicePixelRatio := some 2
    titleBoxMin := { x := 1 / 10, y := 0, z := 0 }
    titleBoxMax := { x := 101 / 10, y := 4 / 5, z := 1 / 10 } }

/-- The same display after a resize to 1600 by 900. -/
def resizedEnv : Env α :=
  { (sampleEnv : Env α) with innerWidth := 1600, innerHeight := 900 }

/-- A document with a 300 by 150 canvas and a title element without inline
display. -/
def sampleDocument : Document α :=
  { canvasWidth := 300, canvasHeight := 150, mainTitle := some "" }

/-- The scene after `init` on the sample display. -/
def sampleScene (M : JsMath α) : MainScene α :=
  (init M sampleEnv (MainScene.create sampleDocument)).state

end Methods

/-! ## Lemmas on `Shape.render` -/

section ShapeLemmas

variable {α : Type} [Field α]

theorem Shape.renders_nil (M : JsMath α) (sh : Shape α) : Shape.renders M [] sh = sh := rfl

theorem Shape.renders_cons (M : JsMath α) (t : α) (ts : List α) (sh : Shape α) :
    Shape.renders M (t :: ts) sh = Shape.renders M ts (sh.render M t) := rfl

/-- A sequence of render calls leaves speed, phase offset, reference position
and the X and Z components of position and rotation as they were. -/
theorem Shape.renders_frame (M : JsMath α) (ts : List α) (sh : Shape α) :
    (Shape.renders M ts sh).speed = sh.speed ∧
    (Shape.renders M ts sh).offsetSpeed = sh.offsetSpeed ∧
    (Shape.renders M ts sh).initPosition = sh.initPosition ∧
    (Shape.renders M ts sh).mesh.position.x = sh.mesh.position.x ∧
    (Shape.renders M ts sh).mesh.position.z = sh.mesh.position.z ∧
    (Shape.renders M ts sh).mesh.rotation.x = sh.mesh.rotation.x ∧
    (Shape.renders M ts sh).mesh.rotation.z = sh.mesh.rotation.z := by
  induction ts generalizing sh with
  | nil => simp [Shape.renders_nil]
  | cons t ts ih =>
    rw [Shape.renders_cons]
    obtain ⟨h1, h2, h3, h4, h5, h6, h7⟩ := ih (sh.render M t)
    exact ⟨h1, h2, h3, h4, h5, h6, h7⟩

/-- Each render call adds `0.01` to the Y rotation. -/
theorem Shape.renders_rotationY (M : JsMath α) (ts : List α) (sh : Shape α) :
    (Shape.renders M ts sh).mesh.rotation.y = sh.mesh.rotation.y + (ts.length : α) * 0.01 := by
  induction ts generalizing sh with
  | nil => simp [Shape.renders_nil]
  | cons t ts ih =>
    rw [Shape.renders_cons, ih (sh.render M t)]
    simp only [Shape.render, List.length_cons, Nat.cast_add, Nat.cast_one]
    ring

end ShapeLemmas

/-! ## The claims on `Shape` -/

section ShapeClaims

variable {α : Type} [Field α]

/-- C1: for a Shape constructed with speed `s`, phase offset `o` and reference
position `p` (defaults `0.001` and `0` when not given), after any sequence of
earlier render calls the call `render(t)` leaves `position.y` equal to
`sin(t * s + o) + p.y`; at `t = 0` this is `p.y + sin(o)`; and in the render
loop over a list of Shapes the pose a Shape gets is the one its own `render`
gives, whatever Shapes stand before and after it. -/
theorem shape_render_positionY (M : JsMath α) (a : ShapeArgs α) (parentMesh : Object3D α)
    (earlier : List α) (t : α) :
    ((Shape.renders M earlier (Shape.construct a parentMesh).1).render M t).mesh.position.y
        = M.sin (t * a.speed.getD 0.001 + a.offsetSpeed.getD 0) + a.position.y ∧
    ((Shape.renders M earlier (Shape.construct a parentMesh).1).render M 0).mesh.position.y
        = a.position.y + M.sin (a.offsetSpeed.getD 0) ∧
    (∀ (before after : List (Shape α)) (sh : Shape α),
        ((before ++ sh :: after).map (Shape.render M t))[before.length]? = some (sh.render M t) ∧
        (sh.render M t).mesh.position.y
          = M.sin (t * sh.speed + sh.offsetSpeed) + sh.initPosition.y) := by
  obtain ⟨h1, h2, h3, -⟩ := Shape.renders_frame M earlier (Shape.construct a parentMesh).1
  refine ⟨?_, ?_, ?_⟩
  · simp only [Shape.render, h1, h2, h3]
    simp [Shape.construct]
  · simp only [Shape.render, h1, h2, h3]
    simp [Shape.construct, add_comm]
  · intro before after sh
    refine ⟨?_, rfl⟩
    rw [List.map_append, List.map_cons, List.getElem?_append_right (by simp)]
    simp

/-- C2: for a freshly constructed Shape and any `k` time arguments, after the
`k` render calls `rotation.y` is `k * 0.01`, whatever the times were. -/
theorem shape_rotationY_after_renders (M : JsMath α) (a : ShapeArgs α) (parentMesh : Object3D α)
    (times : List α) :
    (Shape.construct a parentMesh).1.mesh.rotation.y = 0 ∧
    (Shape.renders M times (Shape.construct a parentMesh).1).mesh.rotation.y
      = (times.length : α) * 0.01 := by
  refine ⟨rfl, ?_⟩
  rw [Shape.renders_rotationY]
  simp [Shape.construct, Mesh.create]

/-- C8: `render(t)` is total and changes nothing but `position.y` and
`rotation.y` of the mesh: the X and Z components of position and rotation and
the stored reference position, speed and phase offset are as before. -/
theorem shape_render_frame (M : JsMath α) (t : α) (sh : Shape α) :
    (sh.render M t).mesh.position.x = sh.mesh.position.x ∧
    (sh.render M t).mesh.position.z = sh.mesh.position.z ∧
    (sh.render M t).mesh.rotation.x = sh.mesh.rotation.x ∧
    (sh.render M t).mesh.rotation.z = sh.mesh.rotation.z ∧
    (sh.render M t).initPosition = sh.initPosition ∧
    (sh.render M t).speed = sh.speed ∧
    (sh.render M t).offsetSpeed = sh.offsetSpeed ∧
    sh.render M t =
      { sh with
        mesh :=
          { position := { sh.mesh.position with y := (sh.render M t).mesh.position.y }
            rotation := { sh.mesh.rotation with y := (sh.render M t).mesh.rotation.y } } } :=
  ⟨rfl, rfl, rfl, rfl, rfl, rfl, rfl, rfl⟩

end ShapeClaims

/-! ## Lemmas on `MainScene` -/

section SceneLemmas

variable {α : Type} [LinearOrderedField α]

/-- The state `init` reaches, written out: `init` returns, and the fields it
leaves are the ones below. -/
theorem init_done (M : JsMath α) (env : Env α) (doc : Document α) :
    ∃ c : MainScene α, init M env (MainScene.create doc) = Result.done c ∧
      c.mesh = none ∧ c.titleEl = doc.mainTitle ∧
      c.stats = some { panel := 0 } ∧
      c.width = some env.innerWidth ∧ c.height = some env.innerHeight ∧
      (∃ cam : Camera α, c.camera = some cam ∧
        cam.aspect = JsNum.num (env.innerWidth / env.innerHeight)) ∧
      (∃ r : Renderer α, c.renderer = some r ∧ r.size = (env.innerWidth, env.innerHeight)) :=
  ⟨_, rfl, rfl, rfl, rfl, rfl, rfl, ⟨_, rfl, rfl⟩, ⟨_, rfl, rfl⟩⟩

/-- The X extent of the title, shifted by `centerOffset`, is symmetric about
zero exactly when the bounding box starts at `x = 0`. -/
theorem centerOffset_symmetric_iff (lo hi : α) :
    lo + -(hi - lo) / 2 = -(hi + -(hi - lo) / 2) ↔ lo = 0 := by
  constructor
  · intro h
    have h2 : 2 * lo = 0 := by linear_combination h
    simpa using h2
  · intro h
    subst h
    ring

end SceneLemmas

/-! ## The claims on `MainScene` -/

section SceneClaims

variable {α : Type} [LinearOrderedField α]

/-- C3: with a viewport of positive width `W` and height `H`, `handleMouse`
replaces the stored sample by `x = (clientX / W) * 2 - 1`,
`y = -(clientY / H) * 2 + 1` whatever it was before and touches nothing else;
for `0 ≤ clientX ≤ W` and `0 ≤ clientY ≤ H` both values lie in `[-1, 1]`; the
centre maps to `(0, 0)`, the top-left corner to `(-1, 1)` and the bottom-right
corner to `(1, -1)`. -/
theorem handleMouse_normalised (env : Env α) (c : MainScene α)
    (hW : 0 < env.innerWidth) (hH : 0 < env.innerHeight) :
    (∀ e : MouseEvent α,
      handleMouse env e c =
        { c with mouse := { x := (e.clientX / env.innerWidth) * 2 - 1
                            y := -(e.clientY / env.innerHeight) * 2 + 1 } }) ∧
    (∀ e : MouseEvent α, 0 ≤ e.clientX → e.clientX ≤ env.innerWidth →
      0 ≤ e.clientY → e.clientY ≤ env.innerHeight →
      -1 ≤ (handleMouse env e c).mouse.x ∧ (handleMouse env e c).mouse.x ≤ 1 ∧
      -1 ≤ (handleMouse env e c).mouse.y ∧ (handleMouse env e c).mouse.y ≤ 1) ∧
    (handleMouse env { clientX := env.innerWidth / 2, clientY := env.innerHeight / 2 } c).mouse
      = { x := 0, y := 0 } ∧
    (handleMouse env { clientX := 0, clientY := 0 } c).mouse = { x := -1, y := 1 } ∧
    (handleMouse env { clientX := env.innerWidth, clientY := env.innerHeight } c).mouse
      = { x := 1, y := -1 } := by
  have hW0 : env.innerWidth ≠ 0 := ne_of_gt hW
  have hH0 : env.innerHeight ≠ 0 := ne_of_gt hH
  refine ⟨fun e => rfl, ?_, ?_, ?_, ?_⟩
  · intro e hx0 hx1 hy0 hy1
    have ax0 : 0 ≤ e.clientX / env.innerWidth := div_nonneg hx0 (le_of_lt hW)
    have ax1 : e.clientX / env.innerWidth ≤ 1 := (div_le_one hW).mpr hx1
    have ay0 : 0 ≤ e.clientY / env.innerHeight := div_nonneg hy0 (le_of_lt hH)
    have ay1 : e.clientY / env.innerHeight ≤ 1 := (div_le_one hH).mpr hy1
    simp only [handleMouse]
    refine ⟨?_, ?_, ?_, ?_⟩ <;> linarith
  · simp only [handleMouse, Mouse.mk.injEq]
    constructor
    · field_simp
      ring
    · field_simp
      ring
  · simp only [handleMouse, Mouse.mk.injEq]
    constructor <;> norm_num
  · simp only [handleMouse, Mouse.mk.injEq]
    constructor
    · rw [div_self hW0]
      norm_num
    · rw [div_self hH0]
      norm_num

/-- C4: in a scene whose stats widget and renderer exist, one `draw` returns
and leaves the container's `rotation.y = degToRad(mouse.x * 10)` and
`rotation.x = degToRad(mouse.y * 10)`, with `degToRad(d) = d * PI / 180`,
whatever the rotation was before; the pointer sample itself is not changed. -/
theorem draw_container_rotation (M : JsMath α) (time : α) (c : MainScene α)
    (st : Stats) (r : Renderer α) (hs : c.stats = some st) (hr : c.renderer = some r) :
    draw M time c = Result.done (draw M time c).state ∧
    (draw M time c).state.containerMesh.rotation.y = degToRad M (c.mouse.x * 10) ∧
    (draw M time c).state.containerMesh.rotation.x = degToRad M (c.mouse.y * 10) ∧
    degToRad M (c.mouse.x * 10) = c.mouse.x * 10 * M.PI / 180 ∧
    degToRad M (c.mouse.y * 10) = c.mouse.y * 10 * M.PI / 180 ∧
    (draw M time c).state.mouse = c.mouse := by
  simp only [draw, hs, hr, Result.state, degToRad]
  refine ⟨trivial, trivial, trivial, ?_, ?_, trivial⟩ <;> ring

/-- C5: in a scene whose camera and renderer exist, with a window of positive
width `W` and height `H`, `handleResize` returns and leaves `#width = W`,
`#height = H`, the camera aspect `W / H` (positive), the renderer size
`(W, H)` and the renderer pixel ratio `d` for a reported ratio `d ≠ 0`, and
`1` when the ratio is undefined (or zero); all other fields are as before. -/
theorem handleResize_effects (env : Env α) (c : MainScene α) (cam : Camera α) (r : Renderer α)
    (hW : 0 < env.innerWidth) (hH : 0 < env.innerHeight)
    (hc : c.camera = some cam) (hr : c.renderer = some r) :
    ∃ ratio : α,
      handleResize env c = Result.done
        { c with
          width := some env.innerWidth
          height := some env.innerHeight
          camera := some { cam with aspect := JsNum.num (env.innerWidth / env.innerHeight) }
          renderer := some { pixelRatio := ratio, size := (env.innerWidth, env.innerHeight) } } ∧
      0 < env.innerWidth / env.innerHeight ∧
      (∀ d : α, env.devicePixelRatio = some d → d ≠ 0 → ratio = d) ∧
      (env.devicePixelRatio = none → ratio = 1) ∧
      (env.devicePixelRatio = some 0 → ratio = 1) := by
  refine ⟨match env.devicePixelRatio with
      | some d => if d = 0 then 1 else d
      | none => 1, ?_, div_pos hW hH, ?_, ?_, ?_⟩
  · simp only [handleResize, hc, hr, jsDiv]
  · intro d hd hne
    simp [hd, hne]
  · intro hd
    simp [hd]
  · intro hd
    simp [hd]

/-- C6: `handleResize` is idempotent: run on the state a first call left
behind, with the same window size and pixel ratio, it gives the same outcome
and the same state as the first call. -/
theorem handleResize_idempotent (env : Env α) (c : MainScene α) :
    handleResize env (handleResize env c).state = handleResize env c := by
  cases hc : c.camera with
  | none => simp [handleResize, hc, Result.state]
  | some cam =>
    cases hr : c.renderer with
    | none => simp [handleResize, hc, hr, Result.state]
    | some r => simp [handleResize, hc, hr, Result.state]

/-- C7 (the code departs from the claim): `init` returns with the field
`#mesh` still undefined, since no method assigns it; whatever values the panel
holds, the change callback throws a `TypeError` at its first statement and
leaves the state, the title's display included, as it was. -/
theorem handleChange_throws_after_init (M : JsMath α) (env : Env α) (doc : Document α)
    (g : GuiObj α) :
    ∃ c : MainScene α, init M env (MainScene.create doc) = Result.done c ∧
      c.mesh = none ∧
      handleChange { c with guiObj := g }
        = Result.throw { c with guiObj := g } JsError.typeError ∧
      (handleChange { c with guiObj := g }).state.titleEl = doc.mainTitle :=
  ⟨_, rfl, rfl, rfl, rfl⟩

/-- C9 (the code departs from the claim): when `init` reaches `setCamera` the
fields `#width` and `#height` are still undefined, so the camera is built with
aspect `NaN`, not with the window's width over its height. -/
theorem setCamera_aspect_in_init (M : JsMath α) (env : Env α) (doc : Document α) :
    ∃ (c : MainScene α) (cam : Camera α),
      initThroughSetCamera M env (MainScene.create doc) = Result.done c ∧
      c.width = none ∧ c.height = none ∧
      c.camera = some cam ∧ cam.aspect = JsNum.nan ∧
      cam.aspect ≠ JsNum.num (env.innerWidth / env.innerHeight) :=
  ⟨_, _, rfl, rfl, rfl, rfl, rfl, by intro h; cases h⟩

/-- C10 (the code departs from the claim): for a title whose bounding box
spans `[0.1, 10.1]` on X, `setText` puts the mesh at `x = -5`; the translated
extent is `[-4.9, 5.1]`, which is not symmetric about zero. -/
theorem setText_offcentre :
    ∃ m : Mesh ℚ,
      (setText (sampleEnv : Env ℚ) (MainScene.create sampleDocument)).state.containerMesh.children
        = [Child.mesh m] ∧
      m.position.x = -5 ∧
      (sampleEnv : Env ℚ).titleBoxMin.x + m.position.x = -49 / 10 ∧
      (sampleEnv : Env ℚ).titleBoxMax.x + m.position.x = 51 / 10 ∧
      (sampleEnv : Env ℚ).titleBoxMin.x + m.position.x
        ≠ -((sampleEnv : Env ℚ).titleBoxMax.x + m.position.x) := by
  refine ⟨_, rfl, ?_, ?_, ?_, ?_⟩ <;> norm_num [sampleEnv, Mesh.create]

end SceneClaims

/-! ## The claims at concrete inputs -/

/-- In a window of 800 by 600 the pointer at `(600, 450)` is stored as
`(1/2, -1/2)`, inside `[-1, 1]`. -/
theorem handleMouse_normalised_witness :
    (0 : ℚ) < (sampleEnv : Env ℚ).innerWidth ∧ (0 : ℚ) < (sampleEnv : Env ℚ).innerHeight ∧
    (handleMouse (sampleEnv : Env ℚ) { clientX := 600, clientY := 450 }
        (MainScene.create sampleDocument)).mouse = { x := 1 / 2, y := -1 / 2 } ∧
    (-1 : ℚ) ≤ (handleMouse (sampleEnv : Env ℚ) { clientX := 600, clientY := 450 }
        (MainScene.create sampleDocument)).mouse.x := by
  have hW : (0 : ℚ) < (sampleEnv : Env ℚ).innerWidth := by norm_num [sampleEnv]
  have hH : (0 : ℚ) < (sampleEnv : Env ℚ).innerHeight := by norm_num [sampleEnv]
  have h := handleMouse_normalised (sampleEnv : Env ℚ) (MainScene.create sampleDocument) hW hH
  refine ⟨hW, hH, ?_, ?_⟩
  · rw [h.1]
    norm_num [sampleEnv]
  · exact (h.2.1 { clientX := 600, clientY := 450 } (by norm_num) (by norm_num [sampleEnv])
      (by norm_num) (by norm_num [sampleEnv])).1

/-- With the real sine and π: after `init` on the 800 by 600 display and a
pointer move to `(600, 450)`, stored as `(0.5, -0.5)`, one tick leaves the
container at `rotation.y = degToRad(5)` and `rotation.x = degToRad(-5)`. -/
theorem draw_container_rotation_witness :
    (handleMouse (sampleEnv : Env ℝ) { clientX := 600, clientY := 450 }
        (sampleScene ({ sin := Real.sin, PI := Real.pi } : JsMath ℝ))).mouse
      = ({ x := 0.5, y := -0.5 } : Mouse ℝ) ∧
    (draw ({ sin := Real.sin, PI := Real.pi } : JsMath ℝ) 16
        (handleMouse (sampleEnv : Env ℝ) { clientX := 600, clientY := 450 }
          (sampleScene ({ sin := Real.sin, PI := Real.pi } : JsMath ℝ)))).state.containerMesh.rotation.y
      = degToRad ({ sin := Real.sin, PI := Real.pi } : JsMath ℝ) 5 ∧
    (draw ({ sin := Real.sin, PI := Real.pi } : JsMath ℝ) 16
        (handleMouse (sampleEnv : Env ℝ) { clientX := 600, clientY := 450 }
          (sampleScene ({ sin := Real.sin, PI := Real.pi } : JsMath ℝ)))).state.containerMesh.rotation.x
      = degToRad ({ sin := Real.sin, PI := Real.pi } : JsMath ℝ) (-5) := by
  have h := draw_container_rotation ({ sin := Real.sin, PI := Real.pi } : JsMath ℝ) 16
    (handleMouse (sampleEnv : Env ℝ) { clientX := 600, clientY := 450 }
      (sampleScene ({ sin := Real.sin, PI := Real.pi } : JsMath ℝ))) _ _ rfl rfl
  have hm : (handleMouse (sampleEnv : Env ℝ) { clientX := 600, clientY := 450 }
        (sampleScene ({ sin := Real.sin, PI := Real.pi } : JsMath ℝ))).mouse
      = ({ x := 0.5, y := -0.5 } : Mouse ℝ) := by
    simp only [handleMouse, sampleEnv, Mouse.mk.injEq]
    constructor <;> norm_num
  refine ⟨hm, ?_, ?_⟩
  · rw [h.2.1, hm]
    norm_num
  · rw [h.2.2.1, hm]
    norm_num

/-- With the real sine and π: after `init` on the 800 by 600 display the
camera aspect is `4/3`; a resize to 1600 by 900 leaves aspect `16/9`,
renderer size `(1600, 900)` and pixel ratio 2. -/
theorem handleResize_effects_witness :
    (∃ cam : Camera ℝ,
      (sampleScene ({ sin := Real.sin, PI := Real.pi } : JsMath ℝ)).camera = some cam ∧
      cam.aspect = JsNum.num (4 / 3)) ∧
    (∃ cam : Camera ℝ,
      (handleResize (resizedEnv : Env ℝ)
        (sampleScene ({ sin := Real.sin, PI := Real.pi } : JsMath ℝ))).state.camera = some cam ∧
      cam.aspect = JsNum.num (16 / 9)) ∧
    (handleResize (resizedEnv : Env ℝ)
        (sampleScene ({ sin := Real.sin, PI := Real.pi } : JsMath ℝ))).state.renderer
      = some { pixelRatio := 2, size := (1600, 900) } := by
  obtain ⟨ratio, h, -, hd, -, -⟩ := handleResize_effects (resizedEnv : Env ℝ)
    (sampleScene ({ sin := Real.sin, PI := Real.pi } : JsMath ℝ)) _ _
    (by norm_num [resizedEnv]) (by norm_num [resizedEnv]) rfl rfl
  have hratio : ratio = 2 := hd 2 rfl (by norm_num)
  refine ⟨⟨_, rfl, ?_⟩, ?_, ?_⟩
  · simp only [jsDiv, sampleEnv, JsNum.num.injEq]
    norm_num
  · rw [h]
    refine ⟨_, rfl, ?_⟩
    simp only [resizedEnv, JsNum.num.injEq]
    norm_num
  · rw [h, hratio]
    rfl

end FloatingText
